import Mathlib

/-!
Verification of the Sumner Tunnel ridership analysis pipeline
(`src/main.py`) against its natural-language specification.

The Python source works on pandas DataFrames.  We embed the pipeline
shallowly: a DataFrame of raw ridership records becomes a `List Record`,
a DataFrame of per-day/per-stop totals becomes a `List DRow`, and each
pipeline function becomes a Lean function over those lists.  Failure
points of the Python code (raised exceptions) are made explicit with
`Except PyErr`.  Dates are embedded as day-of-year-2023 indexes
(`2023-06-01` = 152, `2023-07-04` = 185, `2023-07-05` = 186,
`2023-09-01` = 244), which is faithful because the code only ever
compares dates for equality and window membership.  `Total Entries`
values are integers (the data model declares them integers), so the
pandas float round-trips in the source are the identity on them.
Real-valued means and percent changes appear in the source only as
intermediate floats that are immediately rounded to integers with
Python's round-half-to-even; they are embedded here exactly as integer
numerator/denominator pairs, rounded by `roundHalfEvenFrac`.
-/

deriving instance DecidableEq for Except

namespace Sumner

/-- A raw ridership record: one row of the input CSV
(`Service Date`, `Stop Name`, `Route Or Line`, `Total Entries`, `day`). -/
structure Record where
  date : Nat
  stop : String
  route : String
  entries : Int
  day : String
deriving DecidableEq, Repr

/-- A per-date, per-stop daily total row (output of `daily_ridership`). -/
structure DRow where
  date : Nat
  stop : String
  entries : Int
deriving DecidableEq, Repr

/-- One row of the station-statistics table of `station_stats`:
stop name, rounded before-window mean, rounded after-window mean,
differential and percent change. -/
structure SRow where
  stop : String
  bc : Int
  ac : Int
  diff : Int
  pct : Int
deriving DecidableEq, Repr

/-- The value part of one display row of the reindexed
station-statistics table: before, after, differential and
percent-change entries. -/
structure SVals where
  bc : Int
  ac : Int
  diff : Int
  pct : Int
deriving DecidableEq, Repr

/-- The Python exceptions that the embedded code paths can raise.
(`unboundLocal` for referencing the never-assigned `stops` local,
`valueError` for `int(round(nan))` / `NaT.strftime`, `overflowError`
for `int(inf)`, `intCastingNaN` for `astype(int)` on a non-finite
column, `indexError` for out-of-range indexing such as `line.split()[1]`,
`duplicateLabel` for `reindex` on an index with duplicate labels.) -/
inductive PyErr where
  | unboundLocal
  | valueError
  | overflowError
  | intCastingNaN
  | indexError
  | duplicateLabel
deriving DecidableEq, Repr

/-- `OL_STATIONS` from src/main.py lines 32-34. -/
def OL_STATIONS : List String :=
  ["Oak Grove", "Malden Center", "Wellington", "Assembly",
   "Sullivan Square", "Community College", "North Station",
   "Haymarket", "State Street"]

/-- `BL_STATIONS` from src/main.py lines 35-37. -/
def BL_STATIONS : List String :=
  ["Wonderland", "Revere Beach", "Beachmont", "Suffolk Downs",
   "Orient Heights", "Wood Island", "Airport", "Maverick",
   "Aquarium", "State Street", "Government Center", "Bowdoin"]

/-- The `stops` list assigned in the `'Blue Line'` branch of
`get_line_entries` (src/main.py line 58). -/
def BLUE_SHARED : List String := ["Government Center", "State Street"]

/-- The `stops` list assigned in the `'Orange Line'` branch of
`get_line_entries` (src/main.py line 60). -/
def ORANGE_SHARED : List String := ["Haymarket", "North Station", "State Street"]

/-- Membership in the BEFORE window `BC_SUMNER`
(2023-06-01 .. 2023-07-04, i.e. day-of-year 152 .. 185). -/
def bcMem (d : Nat) : Bool := 152 ≤ d && d ≤ 185

/-- Membership in the AFTER window `AC_SUMNER`
(2023-07-05 .. 2023-09-01, i.e. day-of-year 186 .. 244). -/
def acMem (d : Nat) : Bool := 186 ≤ d && d ≤ 244

/-- Python `s.startswith(p)`. -/
def strStartsWith (s p : String) : Bool := p.data.isPrefixOf s.data

/-- Helper for `pySplit`: split a character list at whitespace runs,
dropping empty pieces, with `acc` holding the (reversed) current word. -/
def splitWSAux : List Char → List Char → List String
  | [], acc => if acc.isEmpty then [] else [String.mk acc.reverse]
  | c :: cs, acc =>
    if c.isWhitespace then
      if acc.isEmpty then splitWSAux cs [] else String.mk acc.reverse :: splitWSAux cs []
    else
      splitWSAux cs (c :: acc)

/-- Python `s.split()` with no argument: split on whitespace runs. -/
def pySplit (s : String) : List String := splitWSAux s.data []

/-- Python `s.upper()` (on the ASCII station and line names used here). -/
def strUpper (s : String) : String := String.mk (s.data.map Char.toUpper)

/-- Python / numpy / pandas round-half-to-even of the exact fraction
`n / d` to an integer (the source rounds float means and percent
changes with `round`, `Series.round` and `int(round(.))`, all
half-to-even; the fractions arising here are ratios of integers, so
the exact rational value is what those floats carry). Intended for
`d ≠ 0`; every use below is guarded by the code's own failure paths. -/
def roundHalfEvenFrac (n d : ℤ) : ℤ :=
  let n' := if d < 0 then -n else n
  let d' := if d < 0 then -d else d
  let f := n'.fdiv d'
  let r := n' - f * d'
  if 2 * r < d' then f
  else if d' < 2 * r then f + 1
  else if f % 2 = 0 then f else f + 1

/-- Relabel a record's `Route Or Line` field to `line` when its stop is
in `stops` (the `df.loc[(df['Stop Name'].isin(stops)), 'Route Or Line']
= line` assignment of src/main.py lines 66-67). -/
def relabel (stops : List String) (line : String) (r : Record) : Record :=
  if stops.contains r.stop then { r with route := line } else r

/-- `get_line_entries(df, line, weekdays_only)` (src/main.py lines 40-81).

The first component is the function's result (`Except` because the
unknown-line branch prints and then raises `UnboundLocalError` when the
never-assigned local `stops` is referenced at line 66).  The second
component is the caller's DataFrame after the call: in the
`'Blue Line'` branch the in-place `.loc` assignment at lines 66-67 (and
the `Service Date` conversion at line 70, the identity in this
embedding since dates are already parsed) mutate the caller's frame; in
the `'Orange Line'` branch `df` is rebound at line 61 to a `.loc` copy,
so the caller's frame is left unchanged. -/
def get_line_entries (df : List Record) (line : String) (weekdaysOnly : Bool) :
    Except PyErr (List Record) × List Record :=
  if line == "Blue Line" then
    let working := df.map (relabel BLUE_SHARED line)
    let working2 := if weekdaysOnly then working.filter (fun r => r.day == "Weekday") else working
    (.ok (working2.filter (fun r => r.route == line)), working)
  else if line == "Orange Line" then
    let sub := df.filter (fun r => OL_STATIONS.contains r.stop)
    let working := sub.map (relabel ORANGE_SHARED line)
    let working2 := if weekdaysOnly then working.filter (fun r => r.day == "Weekday") else working
    (.ok (working2.filter (fun r => r.route == line)), df)
  else
    (.error .unboundLocal, df)

/-- The Record Filter as the spec's words describe it (§4.1), for
comparison with `get_line_entries`: the subset of records whose stop
name belongs to the line's station set, with the route relabeled for
shared stops. -/
def recordFilterSpec (df : List Record) (line : String) : List Record :=
  let owned := if line == "Orange Line" then OL_STATIONS else BL_STATIONS
  let shared := if line == "Orange Line" then ORANGE_SHARED else BLUE_SHARED
  (df.filter (fun r => owned.contains r.stop)).map (relabel shared line)

/-- The predicate that characterizes which input records survive
`get_line_entries` for a recognized `line`: the record already carries
the line's label or sits at one of the line's shared stops (for the
Orange Line additionally restricted to `OL_STATIONS`, and to weekday
rows when `weekdaysOnly` is set). -/
def keepPred (line : String) (weekdaysOnly : Bool) (r : Record) : Bool :=
  (r.route == line || (if line == "Orange Line" then ORANGE_SHARED else BLUE_SHARED).contains r.stop)
    && (!(line == "Orange Line") || OL_STATIONS.contains r.stop)
    && (!weekdaysOnly || r.day == "Weekday")

/-- The shared-stop list `get_line_entries` uses for a recognized line. -/
def sharedOf (line : String) : List String :=
  if line == "Orange Line" then ORANGE_SHARED else BLUE_SHARED

/-- `daily_ridership(df)` (src/main.py lines 84-105): group by
`(Service Date, Stop Name)` and sum `Total Entries`, one output row per
group.  Entries are integers, so the `.round()` / `astype(int)`
round-trip of lines 102-103 is the identity and the group value is the
exact integer sum.  (pandas emits groups in sorted key order; the spec
declares output ordering insignificant (§4.2) and no claim or
downstream consumer depends on it, so groups are emitted here in order
of key appearance.) -/
def daily_ridership (rs : List Record) : List DRow :=
  ((rs.map (fun r => (r.date, r.stop))).dedup).map
    (fun p => ⟨p.1, p.2,
      ((rs.filter (fun r => r.date == p.1 && r.stop == p.2)).map (fun r => r.entries)).sum⟩)

/-- The `daily = df.groupby(['Service Date']).sum()` collapse used by
`overall_stats` (src/main.py line 190): one `(date, whole-line total)`
pair per distinct date. -/
def groupDates (df : List DRow) : List (Nat × Int) :=
  ((df.map (fun r => r.date)).dedup).map
    (fun d => (d, ((df.filter (fun r => r.date == d)).map (fun r => r.entries)).sum))

/-- `overall_stats(df, line)` (src/main.py lines 171-206), as the tuple
of values it computes and prints: most recent date, that date's total,
the rounded BEFORE-window average, and the percent change.  Failure
paths of the source: an empty frame fails at `.values[0]`
(`IndexError`, line 194); an empty BEFORE window makes the mean `NaN`
and `int(round(nan))` raises `ValueError` (line 199); a zero rounded
BEFORE average makes the division at line 203 produce `inf` (numerator
nonzero, so `int(inf)` raises `OverflowError`) or `nan` (numerator
zero, so `int(nan)` raises `ValueError`). -/
def overall_stats (df : List DRow) : Except PyErr (Nat × Int × Int × Int) :=
  let daily := groupDates df
  if daily.isEmpty then .error .indexError
  else
    let m := (daily.map Prod.fst).foldl max 0
    let updatedNum := (daily.lookup m).getD 0
    let before := daily.filter (fun p => bcMem p.1)
    if before.isEmpty then .error .valueError
    else
      let avg := roundHalfEvenFrac (before.map Prod.snd).sum (before.length : ℤ)
      if avg = 0 then .error (if updatedNum = 0 then .valueError else .overflowError)
      else .ok (m, updatedNum, avg, roundHalfEvenFrac (100 * (updatedNum - avg)) avg)

/-- Whether the whole-line BEFORE-window average ridership of `df`
exists and is zero: at least one BEFORE-window date, and the
daily totals over the window sum to zero. -/
def beforeAvgIsZero (df : List DRow) : Bool :=
  let before := (groupDates df).filter (fun p => bcMem p.1)
  !before.isEmpty && (before.map Prod.snd).sum == 0

/-- `df.loc[df['Service Date'].isin(BC_SUMNER)]` (src/main.py line 274). -/
def beforeRows (df : List DRow) : List DRow := df.filter (fun r => bcMem r.date)

/-- `df.loc[df['Service Date'].isin(AC_SUMNER)]` (src/main.py line 275). -/
def afterRows (df : List DRow) : List DRow := df.filter (fun r => acMem r.date)

/-- The distinct stop names of a frame, in the role of a pandas
group-by index over `Stop Name`. -/
def stopsOf (rows : List DRow) : List String := (rows.map (fun r => r.stop)).dedup

/-- `(sum, count)` of `Total Entries` for one stop of a frame; the
stop's mean ridership is the fraction `sum / count`. -/
def stopAgg (rows : List DRow) (s : String) : ℤ × ℕ :=
  let xs := (rows.filter (fun r => r.stop == s)).map (fun r => r.entries)
  (xs.sum, xs.length)

/-- `(sum, count)` of the BEFORE-window entries of stop `s`. -/
def stopBeforeAgg (df : List DRow) (s : String) : ℤ × ℕ := stopAgg (beforeRows df) s

/-- `(sum, count)` of the AFTER-window entries of stop `s`. -/
def stopAfterAgg (df : List DRow) (s : String) : ℤ × ℕ := stopAgg (afterRows df) s

/-- Whether stop `s` has BEFORE-window data in `df` whose average
ridership is zero. -/
def stopBeforeAvgIsZero (df : List DRow) (s : String) : Bool :=
  (beforeRows df).any (fun r => r.stop == s) && (stopBeforeAgg df s).1 == 0

/-- Whether the outer-join `pd.concat` of the before and after
per-station means (src/main.py lines 291-293) is free of `NaN` cells:
both group-by results carry the same stop set.  When a stop appears in
only one window, the `int(round(x))` casts at lines 296-297 hit `NaN`
and raise `ValueError`. -/
def joinOk (df : List DRow) : Bool :=
  (stopsOf (afterRows df)).all (fun s => (stopsOf (beforeRows df)).contains s)
    && (stopsOf (beforeRows df)).all (fun s => (stopsOf (afterRows df)).contains s)

/-- The `line.split()[0].upper() + " " + line.split()[1].upper() + " TOTAL"`
label of src/main.py lines 298-299 (empty when `line.split()[1]` would
raise `IndexError`; that path is an error branch of the caller). -/
def totalLabelOf (line : String) : String :=
  match pySplit line with
  | w0 :: w1 :: _ => strUpper w0 ++ " " ++ strUpper w1 ++ " TOTAL"
  | _ => ""

/-- The per-station rows of the station-statistics frame after the
integer rounding of src/main.py lines 296-297: for each stop of the
BEFORE window (the frame's index), its rounded before-window mean and
rounded after-window mean, label-aligned as `pd.concat` aligns the two
group-by results. -/
def stationRowsR (df : List DRow) : List (String × ℤ × ℤ) :=
  (stopsOf (beforeRows df)).map
    (fun s => (s,
      roundHalfEvenFrac (stopBeforeAgg df s).1 ((stopBeforeAgg df s).2 : ℤ),
      roundHalfEvenFrac (stopAfterAgg df s).1 ((stopAfterAgg df s).2 : ℤ)))

/-- The row value assigned by `full_df.loc[line_name + ' TOTAL'] =
full_df.sum(numeric_only=True)` (src/main.py line 299): the label and
the column-wise sums of the already-rounded per-station means, computed
over the frame as it stands before the assignment. -/
def totalRowOf (df : List DRow) (line : String) : String × ℤ × ℤ :=
  (totalLabelOf line,
   ((stationRowsR df).map (fun p => p.2.1)).sum,
   ((stationRowsR df).map (fun p => p.2.2)).sum)

/-- The frame after the `full_df.loc[line_name + ' TOTAL'] =
full_df.sum(numeric_only=True)` assignment of src/main.py line 299.
pandas `.loc[label] = row` enlarges the frame (appends the row) only
when the label is absent from the index; when a station is named
exactly the total label, the assignment instead overwrites that
station's row in place — with sums that were computed over the frame
including the row being destroyed. -/
def withTotal (df : List DRow) (line : String) : List (String × ℤ × ℤ) :=
  if totalLabelOf line ∈ (stationRowsR df).map Prod.fst then
    (stationRowsR df).map
      (fun p => if p.1 == totalLabelOf line then totalRowOf df line else p)
  else
    stationRowsR df ++ [totalRowOf df line]

/-- The `Differential` and `% Change` columns of src/main.py lines
302-305 applied to one row (`AC - BC` and
`round(((AC - BC) / BC) * 100)`, the latter kept as the integer the
source casts the column to). -/
def enrich (p : String × ℤ × ℤ) : SRow :=
  ⟨p.1, p.2.1, p.2.2, p.2.2 - p.2.1, roundHalfEvenFrac (100 * (p.2.2 - p.2.1)) p.2.1⟩

/-- The full station-statistics table synthesized by src/main.py lines
296-305: per-station rows in frame order followed by the line-total
row, each with before, after, differential and percent-change values. -/
def buildTable (df : List DRow) (line : String) : List SRow :=
  (withTotal df line).map enrich

/-- `station_stats` up to (and excluding) the display reindexing of
src/main.py lines 310-313.  Failure paths of the source: an empty
BEFORE or AFTER window fails at `NaT.strftime` (lines 281-284,
`ValueError`); a stop present in only one window fails at
`int(round(nan))` (lines 296-297, `ValueError`); a `line` of fewer
than two words fails at `line.split()[1]` (line 298, `IndexError`); a
zero rounded before-mean in any row, the total row included, makes the
`% Change` column non-finite and `astype(int)` raises (line 304,
`IntCastingNaNError`). -/
def station_stats_table (df : List DRow) (line : String) : Except PyErr (List SRow) :=
  if (beforeRows df).isEmpty || (afterRows df).isEmpty then .error .valueError
  else if !joinOk df then .error .valueError
  else
    match pySplit line with
    | _ :: _ :: _ =>
      if (withTotal df line).any (fun p => p.2.1 == 0) then .error .intCastingNaN
      else .ok (buildTable df line)
    | _ => .error .indexError

/-- `full_df.reindex(names)` (src/main.py lines 311 and 313): one
output row per requested label, carrying the matching frame row's
values or an all-`NaN` placeholder (`none`) when the label is absent.
pandas `reindex` raises on an index with duplicate labels. -/
def reindexTo (names : List String) (t : List SRow) :
    Except PyErr (List (String × Option SVals)) :=
  if (t.map SRow.stop).Nodup then
    .ok (names.map (fun n =>
      (n, (t.find? (fun r => r.stop == n)).map (fun r => ⟨r.bc, r.ac, r.diff, r.pct⟩))))
  else .error .duplicateLabel

/-- `station_stats(df, line)` (src/main.py lines 255-321) as the table
it prints: the synthesized statistics table, display-reindexed to the
line's station order (plus total row) when `line` starts with
`'Orange Line'` or `'Blue Line'`, left in frame order otherwise.  (The
`check_missing` call at line 278 only prints; its diagnostics are
modeled separately by `check_missing` below.) -/
def station_stats (df : List DRow) (line : String) :
    Except PyErr (List (String × Option SVals)) :=
  (station_stats_table df line).bind (fun t =>
    if strStartsWith line "Orange Line" then
      reindexTo (OL_STATIONS ++ ["ORANGE LINE TOTAL"]) t
    else if strStartsWith line "Blue Line" then
      reindexTo (BL_STATIONS ++ ["BLUE LINE TOTAL"]) t
    else .ok (t.map (fun r => (r.stop, some ⟨r.bc, r.ac, r.diff, r.pct⟩))))

/-- The station list the reindexing of src/main.py lines 310-313 uses. -/
def lineStations (line : String) : List String :=
  if line == "Orange Line" then OL_STATIONS else BL_STATIONS

/-- The total-row label the reindexing of src/main.py lines 310-313
appends last. -/
def lineTotalLabel (line : String) : String :=
  if line == "Orange Line" then "ORANGE LINE TOTAL" else "BLUE LINE TOTAL"

/-- The stops with any BEFORE- or AFTER-window data in `df` (the
station data `station_stats` works from). -/
def windowStops (df : List DRow) : List String :=
  (stopsOf (beforeRows df) ++ stopsOf (afterRows df)).dedup

/-- `check_missing(after_sumner, line)` (src/main.py lines 209-252) as
the report it prints: for each date whose row count
(`value_counts`) is strictly below the line's expected station count,
the expected stations that did not report on that date.  An
unrecognized line prefix yields `dates_missing = []` (line 234), so
nothing is reported.  (The branch on the line prefix inside the loop,
lines 244-247, matches the branch that selected `dates_missing`; the
unrecognized case never reaches the loop.) -/
def check_missing (after : List DRow) (line : String) : List (Nat × List String) :=
  let dates := (after.map (fun r => r.date)).dedup
  let countOn := fun d => ((after.filter (fun r => r.date == d)).length)
  let datesMissing :=
    if strStartsWith line "Orange Line" then
      dates.filter (fun d => countOn d < OL_STATIONS.length)
    else if strStartsWith line "Blue Line" then
      dates.filter (fun d => countOn d < BL_STATIONS.length)
    else []
  datesMissing.map (fun d =>
    let temp := (after.filter (fun r => r.date == d)).map (fun r => r.stop)
    if strStartsWith line "Orange Line" then
      (d, OL_STATIONS.filter (fun s => !temp.contains s))
    else
      (d, BL_STATIONS.filter (fun s => !temp.contains s)))

/-- The value `check_missing` returns to its caller: the Python
function body ends without a `return` statement (the
`return station_counts` of src/main.py lines 249-252 is commented out),
so every call returns `None`. -/
def check_missing_return_value : List DRow → String → Option (List (Nat × List String)) :=
  fun _ _ => none

/-- Whether an embedded Python call raised instead of returning. -/
def exceptFails {ε α : Type} : Except ε α → Bool
  | .ok _ => false
  | .error _ => true

theorem roundHalfEvenFrac_zero (d : ℤ) : roundHalfEvenFrac 0 d = 0 := by
  simp only [roundHalfEvenFrac, neg_zero, ite_self, Int.zero_fdiv, zero_mul, zero_sub,
    neg_zero, mul_zero, sub_zero]
  split_ifs <;> omega

theorem sumMapSub {α : Type} (f g : α → ℤ) (l : List α) :
    (l.map (fun x => f x - g x)).sum = (l.map f).sum - (l.map g).sum := by
  induction l with
  | nil => simp
  | cons a l ih => simp [ih]; ring

theorem filterFilter {α : Type} (p q : α → Bool) (l : List α) :
    (l.filter p).filter q = l.filter (fun a => p a && q a) := by
  induction l with
  | nil => rfl
  | cons a l ih =>
    by_cases h : p a
    · by_cases h2 : q a <;> simp [List.filter_cons, h, h2, ih]
    · simp [List.filter_cons, h, ih]

theorem filterMapComm {α : Type} (f : α → α) (p : α → Bool) (l : List α) :
    (l.map f).filter p = (l.filter (fun x => p (f x))).map f := by
  induction l with
  | nil => rfl
  | cons a l ih => by_cases h : p (f a) <;> simp [List.filter_cons, h, ih]

theorem filterCongrOn {α : Type} (p q : α → Bool) :
    ∀ (l : List α), (∀ a ∈ l, p a = q a) → l.filter p = l.filter q := by
  intro l h
  induction l with
  | nil => rfl
  | cons a l ih =>
    have ha := h a (List.mem_cons_self a l)
    rw [List.filter_cons, List.filter_cons, ha]
    by_cases hq : q a <;> simp [hq, ih (fun b hb => h b (List.mem_cons_of_mem a hb))]

theorem mapCongrOn {α β : Type} (f g : α → β) :
    ∀ (l : List α), (∀ a ∈ l, f a = g a) → l.map f = l.map g := by
  intro l h
  induction l with
  | nil => rfl
  | cons a l ih =>
    rw [List.map_cons, List.map_cons, h a (List.mem_cons_self a l),
      ih (fun b hb => h b (List.mem_cons_of_mem a hb))]

theorem relabel_route_beq (shared : List String) (ln : String) (r : Record) :
    ((relabel shared ln r).route == ln) = (r.route == ln || shared.contains r.stop) := by
  by_cases h : r.stop ∈ shared <;> simp [relabel, h]

theorem relabel_day (shared : List String) (ln : String) (r : Record) :
    (relabel shared ln r).day = r.day := by
  by_cases h : r.stop ∈ shared <;> simp [relabel, h]

theorem relabel_idem (shared : List String) (ln : String) (r : Record) :
    relabel shared ln (relabel shared ln r) = relabel shared ln r := by
  by_cases h : r.stop ∈ shared <;> simp [relabel, h]

/-- The record stream of the C1 failing input. -/
def exRecsA : List Record := [⟨160, "Maverick", "Blue Line", 5, "Weekday"⟩]

/-- Claim C1 (code_bug evidence): calling the Record Filter with the
unrecognized line identifier `"Red Line"` does fail rather than return
a result, but with `UnboundLocalError` — line 63 of src/main.py prints
a message and falls through, and line 66 then references the local
`stops` that no branch assigned.  No `ConfigurationError` exists
anywhere in the source, so the claim's required error type is not what
the code raises.  The caller's frame is left unmutated. -/
theorem unknown_line_fails_with_unbound_local :
    get_line_entries exRecsA "Red Line" false = (Except.error PyErr.unboundLocal, exRecsA) := by
  decide

/-- The AFTER-window daily totals of the C4 failing input: on date 200
only Oak Grove reports; on date 201 all nine Orange Line stations
report. -/
def exAfterB : List DRow :=
  [⟨200, "Oak Grove", 5⟩,
   ⟨201, "Oak Grove", 1⟩, ⟨201, "Malden Center", 1⟩, ⟨201, "Wellington", 1⟩,
   ⟨201, "Assembly", 1⟩, ⟨201, "Sullivan Square", 1⟩, ⟨201, "Community College", 1⟩,
   ⟨201, "North Station", 1⟩, ⟨201, "Haymarket", 1⟩, ⟨201, "State Street", 1⟩]

/-- Claim C4 (code_bug evidence): on the failing input the
Completeness Checker correctly identifies exactly the one date whose
reporting-station count is below the expected nine and prints the
expected-minus-reporting set difference for it — but the function
returns `None` (its `return` statement, src/main.py lines 249-252, is
commented out), so nothing is collectible by the caller. -/
theorem check_missing_is_printed_not_returned :
    check_missing exAfterB "Orange Line"
        = [(200, ["Malden Center", "Wellington", "Assembly", "Sullivan Square",
                  "Community College", "North Station", "Haymarket", "State Street"])]
      ∧ check_missing_return_value exAfterB "Orange Line" = none := by
  exact ⟨by decide, rfl⟩

/-- The record stream of the C5 counterexample: a record at an
Orange-Line-owned stop whose `Route Or Line` label is neither
`'Orange Line'` nor a shared-stop relabel target. -/
def exRecsC : List Record := [⟨160, "Oak Grove", "Shuttle", 5, "Weekday"⟩]

/-- Claim C5 counterexample: the claim says the Record Filter's output
is exactly the input records whose stop name is in the line's station
set (relabeled on shared stops).  `"Oak Grove"` is in `OL_STATIONS`,
so the claimed output contains the record, but `get_line_entries`
drops it: the record's label is not `'Orange Line'` and its stop is
not a shared stop, so the `Route Or Line` filter at line 79 discards
it. -/
theorem record_filter_station_set_counterexample :
    (get_line_entries exRecsC "Orange Line" false).1
      ≠ Except.ok (recordFilterSpec exRecsC "Orange Line") := by
  decide

/-- Claim C5 (amended): for a recognized line, the Record Filter's
output is exactly the subset of input records that already carry the
line's label or sit at one of the line's shared stops — restricted,
for the Orange Line, to records whose stop is in `OL_STATIONS`, and to
weekday records when the weekday flag is set — with the route field
relabeled to the line name on shared stops. -/
theorem record_filter_filters_by_label_or_shared :
    ∀ (df : List Record) (w : Bool) (line : String),
      line = "Blue Line" ∨ line = "Orange Line" →
      (get_line_entries df line w).1
        = Except.ok ((df.filter (keepPred line w)).map (relabel (sharedOf line) line)) := by
  intro df w line h
  rcases h with h | h <;> subst h
  · have hb : ("Blue Line" == "Blue Line") = true := by decide
    simp only [get_line_entries, hb, if_true]
    cases w
    · simp only [Bool.false_eq_true, if_false]
      rw [filterMapComm]
      refine congrArg Except.ok (congrArg _ ?_)
      refine filterCongrOn _ _ df (fun r _ => ?_)
      rw [relabel_route_beq]
      simp [keepPred, sharedOf]
    · simp only [if_true]
      rw [filterFilter, filterMapComm]
      refine congrArg Except.ok (congrArg _ ?_)
      refine filterCongrOn _ _ df (fun r _ => ?_)
      rw [relabel_day, relabel_route_beq]
      simp [keepPred, sharedOf, Bool.and_comm]
  · have ho1 : ("Orange Line" == "Blue Line") = false := by decide
    have ho2 : ("Orange Line" == "Orange Line") = true := by decide
    simp only [get_line_entries, ho1, ho2, Bool.false_eq_true, if_false, if_true]
    cases w
    · simp only [Bool.false_eq_true, if_false]
      rw [filterMapComm, filterFilter]
      refine congrArg Except.ok (congrArg _ ?_)
      refine filterCongrOn _ _ df (fun r _ => ?_)
      rw [relabel_route_beq]
      simp [keepPred, sharedOf, ho2, Bool.and_comm, Bool.and_left_comm]
    · simp only [if_true]
      rw [filterFilter, filterMapComm, filterFilter]
      refine congrArg Except.ok (congrArg _ ?_)
      refine filterCongrOn _ _ df (fun r _ => ?_)
      rw [relabel_day, relabel_route_beq]
      simp [keepPred, sharedOf, ho2, Bool.and_comm, Bool.and_left_comm]

/-- The record stream instantiating the C5 amended theorem's witness. -/
def exRecsD : List Record :=
  [⟨160, "State Street", "Orange Line", 7, "Weekday"⟩,
   ⟨160, "Wonderland", "Blue Line", 9, "Saturday"⟩,
   ⟨161, "Downtown Crossing", "Red Line", 3, "Weekday"⟩]

/-- Witness for `record_filter_filters_by_label_or_shared` at a
concrete input and line. -/
theorem record_filter_filters_by_label_or_shared_witness :
    (get_line_entries exRecsD "Blue Line" false).1
      = Except.ok ((exRecsD.filter (keepPred "Blue Line" false)).map
          (relabel (sharedOf "Blue Line") "Blue Line")) :=
  record_filter_filters_by_label_or_shared exRecsD false "Blue Line" (Or.inl rfl)

/-- The record stream of the C8 counterexample and witness. -/
def exRecsF : List Record := [⟨160, "State Street", "Orange Line", 5, "Weekday"⟩]

/-- Claim C8 counterexample: the Record Filter mutates its input.  On
the `'Blue Line'` path the `.loc` assignment of src/main.py lines
66-67 runs against the caller's frame itself, so after the call the
caller's record at the shared stop `"State Street"` carries
`'Blue Line'` instead of its original `'Orange Line'` label. -/
theorem record_filter_mutates_input :
    (get_line_entries exRecsF "Blue Line" false).2 ≠ exRecsF := by
  decide

/-- Claim C8 (amended): the Record Filter's input mutation is
idempotent — applying `get_line_entries` to the frame state left by a
first call returns the same result and the same frame state, so a
second pipeline run over the same frame yields identical downstream
outputs. -/
theorem record_filter_second_call_agrees :
    ∀ (df : List Record) (w : Bool) (line : String),
      line = "Blue Line" ∨ line = "Orange Line" →
      get_line_entries (get_line_entries df line w).2 line w = get_line_entries df line w := by
  intro df w line h
  rcases h with h | h <;> subst h
  · have hb : ("Blue Line" == "Blue Line") = true := by decide
    simp only [get_line_entries, hb, if_true]
    have hmm : (df.map (relabel BLUE_SHARED "Blue Line")).map (relabel BLUE_SHARED "Blue Line")
        = df.map (relabel BLUE_SHARED "Blue Line") := by
      rw [List.map_map]
      exact mapCongrOn _ _ df (fun r _ => relabel_idem _ _ r)
    rw [hmm]
  · have ho1 : ("Orange Line" == "Blue Line") = false := by decide
    have ho2 : ("Orange Line" == "Orange Line") = true := by decide
    simp only [get_line_entries, ho1, ho2, Bool.false_eq_true, if_false, if_true]

/-- Witness for `record_filter_second_call_agrees` at a concrete
input: the second call on the mutated frame agrees with the first. -/
theorem record_filter_second_call_agrees_witness :
    get_line_entries (get_line_entries exRecsF "Blue Line" false).2 "Blue Line" false
      = get_line_entries exRecsF "Blue Line" false :=
  record_filter_second_call_agrees exRecsF false "Blue Line" (Or.inl rfl)

/-- Claim C6: the Daily Aggregator emits exactly one row per distinct
`(serviceDate, stopName)` pair of the input — no pair is dropped, none
is duplicated — and each row's total is the sum of every matching input
record's entries, anomalous ones included (entries are integers, so the
source's `.round()` is the identity on the group sums). -/
theorem daily_ridership_unique_rows_and_sums :
    ∀ rs : List Record,
      ((daily_ridership rs).map (fun r => (r.date, r.stop))).Nodup
        ∧ (∀ p : Nat × String,
            p ∈ (daily_ridership rs).map (fun r => (r.date, r.stop))
              ↔ p ∈ rs.map (fun r => (r.date, r.stop)))
        ∧ ∀ r ∈ daily_ridership rs,
            r.entries
              = ((rs.filter (fun x => x.date == r.date && x.stop == r.stop)).map
                  (fun x => x.entries)).sum := by
  intro rs
  have hmap : (daily_ridership rs).map (fun r => (r.date, r.stop))
      = (rs.map (fun r => (r.date, r.stop))).dedup := by
    simp [daily_ridership, List.map_map, Function.comp_def]
  refine ⟨?_, ?_, ?_⟩
  · rw [hmap]; exact List.nodup_dedup _
  · intro p; rw [hmap, List.mem_dedup]
  · intro r hr
    unfold daily_ridership at hr
    rw [List.mem_map] at hr
    obtain ⟨p, _, rfl⟩ := hr
    rfl

/-- The record stream instantiating the C6 witness. -/
def exRecsE : List Record :=
  [⟨152, "Airport", "Blue Line", 3, "Weekday"⟩,
   ⟨152, "Airport", "Blue Line", 4, "Weekday"⟩,
   ⟨153, "Airport", "Blue Line", 5, "Weekday"⟩]

/-- Witness for `daily_ridership_unique_rows_and_sums`: uniqueness of
the grouped keys at a concrete input. -/
theorem daily_ridership_unique_rows_witness :
    ((daily_ridership exRecsE).map (fun r => (r.date, r.stop))).Nodup :=
  (daily_ridership_unique_rows_and_sums exRecsE).1

/-- Claim C10: calling the Completeness Checker with a line name
starting with neither `'Orange Line'` nor `'Blue Line'` reports no
missing dates at all (the `else` branch of src/main.py lines 233-234
sets `dates_missing = []`) and raises no error, whatever the data. -/
theorem check_missing_unknown_line_empty :
    ∀ (after : List DRow) (line : String),
      strStartsWith line "Orange Line" = false →
      strStartsWith line "Blue Line" = false →
      check_missing after line = [] := by
  intro after line h1 h2
  simp [check_missing, h1, h2]

/-- The AFTER-window daily totals instantiating the C10 witness. -/
def exAfterK : List DRow := [⟨200, "Oak Grove", 5⟩, ⟨201, "Maverick", 2⟩]

/-- Witness for `check_missing_unknown_line_empty` at a concrete input
and the unrecognized line `"Red Line"`. -/
theorem check_missing_unknown_line_empty_witness :
    check_missing exAfterK "Red Line" = [] :=
  check_missing_unknown_line_empty exAfterK "Red Line" (by decide) (by decide)

theorem station_stats_table_ok_elim {df : List DRow} {line : String} {t : List SRow}
    (h : station_stats_table df line = Except.ok t) :
    t = buildTable df line ∧ joinOk df = true ∧ ∀ p ∈ withTotal df line, p.2.1 ≠ 0 := by
  unfold station_stats_table at h
  split at h
  · simp at h
  next hne =>
    split at h
    · simp at h
    next hjoin =>
      split at h
      next heq =>
        split at h
        · simp at h
        next hany =>
          injection h with h2
          refine ⟨h2.symm, ?_, ?_⟩
          · simpa using hjoin
          · intro p hp hzero
            apply hany
            rw [List.any_eq_true]
            exact ⟨p, hp, by simp [hzero]⟩
      next heq => simp at h

theorem stationRowsR_map_fst (df : List DRow) :
    (stationRowsR df).map Prod.fst = stopsOf (beforeRows df) := by
  unfold stationRowsR
  rw [List.map_map]
  simp [Function.comp_def]

theorem withTotal_fst_mem {df : List DRow} {line : String} {n : String}
    (hn : n ∈ (withTotal df line).map Prod.fst) :
    n ∈ stopsOf (beforeRows df) ∨ n = totalLabelOf line := by
  unfold withTotal at hn
  split at hn
  · rw [List.map_map, List.mem_map] at hn
    obtain ⟨p, hp, heq⟩ := hn
    by_cases hb : p.1 = totalLabelOf line
    · right
      rw [← heq]
      simp [Function.comp_def, hb, totalRowOf]
    · left
      have hp1 : p.1 ∈ stopsOf (beforeRows df) := by
        rw [← stationRowsR_map_fst df]
        exact List.mem_map_of_mem _ hp
      rw [← heq]
      simpa [Function.comp_def, hb] using hp1
  · rw [List.map_append] at hn
    rcases List.mem_append.mp hn with hh | hh
    · left
      rw [← stationRowsR_map_fst df]
      exact hh
    · right
      simpa [totalRowOf] using hh

theorem mem_withTotal_of_ne_label {df : List DRow} {line s : String}
    (hs : s ∈ stopsOf (beforeRows df)) (hne : s ≠ totalLabelOf line) :
    (s, roundHalfEvenFrac (stopBeforeAgg df s).1 ((stopBeforeAgg df s).2 : ℤ),
     roundHalfEvenFrac (stopAfterAgg df s).1 ((stopAfterAgg df s).2 : ℤ))
      ∈ withTotal df line := by
  have helem : (s, roundHalfEvenFrac (stopBeforeAgg df s).1 ((stopBeforeAgg df s).2 : ℤ),
      roundHalfEvenFrac (stopAfterAgg df s).1 ((stopAfterAgg df s).2 : ℤ))
        ∈ stationRowsR df := List.mem_map.mpr ⟨s, hs, rfl⟩
  unfold withTotal
  split
  · apply List.mem_map.mpr
    refine ⟨_, helem, ?_⟩
    simp [hne]
  · exact List.mem_append_left _ helem

theorem withTotal_of_label_not_mem {df : List DRow} {line : String}
    (hnl : totalLabelOf line ∉ stopsOf (beforeRows df)) :
    withTotal df line = stationRowsR df ++ [totalRowOf df line] := by
  unfold withTotal
  rw [if_neg]
  rw [stationRowsR_map_fst]
  exact hnl

theorem before_subset_windowStops {df : List DRow} :
    ∀ s ∈ stopsOf (beforeRows df), s ∈ windowStops df := by
  intro s hs
  unfold windowStops
  rw [List.mem_dedup, List.mem_append]
  exact Or.inl hs

/-- The daily totals of the C2 counterexample: the station named
exactly `"BLUE LINE TOTAL"` has a zero BEFORE-window average, but line
299's `.loc` assignment overwrites its row with the total row, so the
zero baseline disappears and the program completes numerically. -/
def exDRowL : List DRow :=
  [⟨152, "BLUE LINE TOTAL", 0⟩, ⟨186, "BLUE LINE TOTAL", 5⟩,
   ⟨152, "Maverick", 10⟩, ⟨186, "Maverick", 12⟩]

/-- Claim C2 counterexample: a station with zero BEFORE-window average
ridership for which `station_stats` raises nothing and returns a
numeric table — the station is named exactly the total-row label, so
the overwrite at src/main.py line 299 destroys its zero-baseline row
before the `% Change` division runs. -/
theorem zero_baseline_overwritten_counterexample :
    stopBeforeAvgIsZero exDRowL "BLUE LINE TOTAL" = true
      ∧ exceptFails (station_stats exDRowL "Blue Line") = false := by
  decide

/-- Claim C2 (amended): a zero BEFORE-window baseline average makes
the code raise instead of producing a numeric percent change — at
whole-line granularity in `overall_stats` always (the zero rounded
average makes the division at src/main.py line 203 non-finite, and
`int()` then raises), and at station granularity in `station_stats`
for every zero-baseline station not named exactly the line-total label
(its zero before-mean makes the `% Change` column non-finite, so
`astype(int)` at line 304 raises; any earlier failure on the same
input is also a raise, never a numeric result).  A station named
exactly the total label escapes: line 299 overwrites its row. -/
theorem zero_baseline_signals_error :
    (∀ df : List DRow, beforeAvgIsZero df = true → exceptFails (overall_stats df) = true)
      ∧ (∀ (df : List DRow) (line s : String), stopBeforeAvgIsZero df s = true →
          s ≠ totalLabelOf line →
          exceptFails (station_stats df line) = true) := by
  constructor
  · intro df h
    simp only [beforeAvgIsZero, Bool.and_eq_true, Bool.not_eq_true', beq_iff_eq] at h
    obtain ⟨h1, h2⟩ := h
    have hdaily : (groupDates df).isEmpty = false := by
      cases hg : groupDates df with
      | nil => rw [hg] at h1; simp at h1
      | cons a l => rfl
    unfold overall_stats
    simp only [hdaily, Bool.false_eq_true, if_false, h1, h2, roundHalfEvenFrac_zero]
    rfl
  · intro df line s h hne
    simp only [stopBeforeAvgIsZero, Bool.and_eq_true, beq_iff_eq] at h
    obtain ⟨hmem, hsum⟩ := h
    have hs : s ∈ stopsOf (beforeRows df) := by
      rw [List.any_eq_true] at hmem
      obtain ⟨r, hr, hrs⟩ := hmem
      rw [beq_iff_eq] at hrs
      unfold stopsOf
      rw [List.mem_dedup, List.mem_map]
      exact ⟨r, hr, hrs⟩
    have htab : exceptFails (station_stats_table df line) = true := by
      unfold station_stats_table
      split
      · rfl
      next hwin =>
        split
        · rfl
        next hjoin =>
          split
          next heq =>
            split
            · rfl
            next hany =>
              exfalso
              apply hany
              rw [List.any_eq_true]
              refine ⟨(s, roundHalfEvenFrac (stopBeforeAgg df s).1 ((stopBeforeAgg df s).2 : ℤ),
                        roundHalfEvenFrac (stopAfterAgg df s).1 ((stopAfterAgg df s).2 : ℤ)),
                      mem_withTotal_of_ne_label hs hne, ?_⟩
              · simp [hsum, roundHalfEvenFrac_zero]
          next heq => rfl
    unfold station_stats
    cases htab2 : station_stats_table df line with
    | error e => rfl
    | ok t => rw [htab2] at htab; simp [exceptFails] at htab

/-- The daily totals instantiating the C2 witness: one BEFORE-window
date with zero entries at one station. -/
def exDRowG : List DRow := [⟨152, "Wonderland", 0⟩]

/-- Witness for `zero_baseline_signals_error` at a concrete zero-baseline
input, for both the line-level and the station-level computation. -/
theorem zero_baseline_signals_error_witness :
    exceptFails (overall_stats exDRowG) = true
      ∧ exceptFails (station_stats exDRowG "Blue Line") = true :=
  ⟨zero_baseline_signals_error.1 exDRowG (by decide),
   zero_baseline_signals_error.2 exDRowG "Blue Line" "Wonderland" (by decide) (by decide)⟩

/-- The daily totals of the C3 counterexample: a station named exactly
`"BLUE LINE TOTAL"` (before-mean 10, after-mean 15) alongside Maverick
(10, 12).  Line 299 overwrites the station's row with the column sums
(20, 27), so the total row no longer equals the sums of the table's
per-station rows. -/
def exDRowM : List DRow :=
  [⟨152, "BLUE LINE TOTAL", 10⟩, ⟨186, "BLUE LINE TOTAL", 15⟩,
   ⟨152, "Maverick", 10⟩, ⟨186, "Maverick", 12⟩]

/-- Claim C3 counterexample: on `exDRowM` the synthesized table's
total-labeled row carries (20, 27) — the sums over the frame including
the destroyed station row — while the per-station rows of the table
sum to (10, 12), so the total row does not equal the column-wise sums
of the individual per-station rows. -/
theorem station_total_row_counterexample :
    station_stats_table exDRowM "Blue Line"
        = Except.ok [SRow.mk "BLUE LINE TOTAL" 20 27 7 35, SRow.mk "Maverick" 10 12 2 20]
      ∧ (SRow.mk "BLUE LINE TOTAL" 20 27 7 35).bc
          ≠ ([SRow.mk "Maverick" 10 12 2 20].map SRow.bc).sum := by
  decide

/-- Claim C3 (amended): when no station with BEFORE-window data is
named exactly the line-total label, the synthesized line-total row (the
last row) carries, in its Before, After and Differential columns,
exactly the column-wise sums of the individual per-station rows — and
those per-station values are the already-integer-rounded window means
of each stop, not a recomputation from the raw daily sums.  (When a
station bears the total label, line 299's `.loc` assignment overwrites
that station's row with the sums instead of appending a row.) -/
theorem station_total_row_is_column_sums :
    ∀ (df : List DRow) (line : String) (t : List SRow),
      station_stats_table df line = Except.ok t →
      totalLabelOf line ∉ stopsOf (beforeRows df) →
      ∀ (st : List SRow) (tot : SRow), t = st ++ [tot] →
        tot.bc = (st.map SRow.bc).sum
          ∧ tot.ac = (st.map SRow.ac).sum
          ∧ tot.diff = (st.map SRow.diff).sum
          ∧ ∀ r ∈ st,
              r.bc = roundHalfEvenFrac (stopBeforeAgg df r.stop).1 ((stopBeforeAgg df r.stop).2 : ℤ)
                ∧ r.ac = roundHalfEvenFrac (stopAfterAgg df r.stop).1 ((stopAfterAgg df r.stop).2 : ℤ) := by
  intro df line t hok hnl st tot hsplit
  obtain ⟨ht, hjoin, hnz⟩ := station_stats_table_ok_elim hok
  subst ht
  have hbt : buildTable df line
      = (stationRowsR df).map enrich ++ [enrich (totalRowOf df line)] := by
    unfold buildTable
    rw [withTotal_of_label_not_mem hnl, List.map_append]
    rfl
  rw [hbt] at hsplit
  obtain ⟨hst, htot⟩ := List.append_inj' hsplit rfl
  have htot2 : enrich (totalRowOf df line) = tot := by
    injection htot
  subst hst
  subst htot2
  have hbc : ((stationRowsR df).map enrich).map SRow.bc
      = (stationRowsR df).map (fun p => p.2.1) := by
    simp [enrich, List.map_map, Function.comp_def]
  have hac : ((stationRowsR df).map enrich).map SRow.ac
      = (stationRowsR df).map (fun p => p.2.2) := by
    simp [enrich, List.map_map, Function.comp_def]
  have hdiff : ((stationRowsR df).map enrich).map SRow.diff
      = (stationRowsR df).map (fun p => p.2.2 - p.2.1) := by
    simp [enrich, List.map_map, Function.comp_def]
  refine ⟨by rw [hbc]; rfl, by rw [hac]; rfl, ?_, ?_⟩
  · rw [hdiff]
    exact (sumMapSub (fun p => p.2.2) (fun p => p.2.1) (stationRowsR df)).symm
  · intro r hr
    rw [List.mem_map] at hr
    obtain ⟨p, hp, rfl⟩ := hr
    unfold stationRowsR at hp
    rw [List.mem_map] at hp
    obtain ⟨s, _, rfl⟩ := hp
    exact ⟨rfl, rfl⟩

/-- The daily totals instantiating the C3 witness: one Orange Line stop
with data in both windows. -/
def exDRowH : List DRow := [⟨152, "Oak Grove", 10⟩, ⟨153, "Oak Grove", 11⟩, ⟨186, "Oak Grove", 20⟩]

/-- Witness for `station_total_row_is_column_sums` at a concrete input
(before mean 21/2 rounds half-to-even to 10). -/
theorem station_total_row_is_column_sums_witness :
    (SRow.mk "ORANGE LINE TOTAL" 10 20 10 100).bc
        = ([SRow.mk "Oak Grove" 10 20 10 100].map SRow.bc).sum
      ∧ (SRow.mk "ORANGE LINE TOTAL" 10 20 10 100).ac
        = ([SRow.mk "Oak Grove" 10 20 10 100].map SRow.ac).sum
      ∧ (SRow.mk "ORANGE LINE TOTAL" 10 20 10 100).diff
        = ([SRow.mk "Oak Grove" 10 20 10 100].map SRow.diff).sum :=
  have h := station_total_row_is_column_sums exDRowH "Orange Line"
    [SRow.mk "Oak Grove" 10 20 10 100, SRow.mk "ORANGE LINE TOTAL" 10 20 10 100]
    (by decide) (by decide)
    [SRow.mk "Oak Grove" 10 20 10 100] (SRow.mk "ORANGE LINE TOTAL" 10 20 10 100) rfl
  ⟨h.1, h.2.1, h.2.2.1⟩

/-- The daily totals of the C9 counterexample: a station named exactly
`"ORANGE LINE TOTAL"` (means 10, 16) alongside Oak Grove (10, 12).
The overwrite makes the total-labeled row (20, 28) with percent change
40, while the formula over the table's per-station rows gives 20. -/
def exDRowN : List DRow :=
  [⟨152, "ORANGE LINE TOTAL", 10⟩, ⟨186, "ORANGE LINE TOTAL", 16⟩,
   ⟨152, "Oak Grove", 10⟩, ⟨186, "Oak Grove", 12⟩]

/-- Claim C9 counterexample: on `exDRowN` the total-labeled row's
percent change (40, computed after line 299 overwrote the station row
with sums including its own destroyed values) differs from
`round(100 * (sum AC - sum BC) / sum BC)` over the table's per-station
rows (20). -/
theorem station_total_pct_counterexample :
    station_stats_table exDRowN "Orange Line"
        = Except.ok [SRow.mk "ORANGE LINE TOTAL" 20 28 8 40, SRow.mk "Oak Grove" 10 12 2 20]
      ∧ (SRow.mk "ORANGE LINE TOTAL" 20 28 8 40).pct
          ≠ roundHalfEvenFrac
              (100 * (([SRow.mk "Oak Grove" 10 12 2 20].map SRow.ac).sum
                - ([SRow.mk "Oak Grove" 10 12 2 20].map SRow.bc).sum))
              (([SRow.mk "Oak Grove" 10 12 2 20].map SRow.bc).sum) := by
  decide

/-- Claim C9 (amended): when no station with BEFORE-window data is
named exactly the line-total label, the percent-change entry of the
synthesized total row is computed from the summed rounded per-station
means themselves — `round(((AC - BC) / BC) * 100)` evaluated at the
total row's Before and After sums — not by averaging or summing the
per-station percent changes; the Before sum is nonzero on every input
that reaches a result (otherwise `astype(int)` raises, src/main.py
line 304).  (A station named the total label is overwritten by sums
that include its own destroyed values, breaking the relation.) -/
theorem station_total_pct_from_summed_rounded_means :
    ∀ (df : List DRow) (line : String) (t : List SRow),
      station_stats_table df line = Except.ok t →
      totalLabelOf line ∉ stopsOf (beforeRows df) →
      ∀ (st : List SRow) (tot : SRow), t = st ++ [tot] →
        (st.map SRow.bc).sum ≠ 0
          ∧ tot.pct
            = roundHalfEvenFrac (100 * ((st.map SRow.ac).sum - (st.map SRow.bc).sum))
                ((st.map SRow.bc).sum) := by
  intro df line t hok hnl st tot hsplit
  obtain ⟨ht, hjoin, hnz⟩ := station_stats_table_ok_elim hok
  subst ht
  have hbt : buildTable df line
      = (stationRowsR df).map enrich ++ [enrich (totalRowOf df line)] := by
    unfold buildTable
    rw [withTotal_of_label_not_mem hnl, List.map_append]
    rfl
  rw [hbt] at hsplit
  obtain ⟨hst, htot⟩ := List.append_inj' hsplit rfl
  have htot2 : enrich (totalRowOf df line) = tot := by
    injection htot
  subst hst
  subst htot2
  have hbc : ((stationRowsR df).map enrich).map SRow.bc
      = (stationRowsR df).map (fun p => p.2.1) := by
    simp [enrich, List.map_map, Function.comp_def]
  have hac : ((stationRowsR df).map enrich).map SRow.ac
      = (stationRowsR df).map (fun p => p.2.2) := by
    simp [enrich, List.map_map, Function.comp_def]
  rw [withTotal_of_label_not_mem hnl] at hnz
  constructor
  · rw [hbc]
    exact hnz _ (List.mem_append_right _ (List.mem_singleton.mpr rfl))
  · rw [hbc, hac]
    rfl

/-- The daily totals instantiating the C9 witness: two Blue Line stops
in both windows (total row: Before 300, After 350, percent change
`round(5000/300) = 17`). -/
def exDRowI : List DRow :=
  [⟨152, "Maverick", 100⟩, ⟨186, "Maverick", 120⟩,
   ⟨152, "Airport", 200⟩, ⟨186, "Airport", 230⟩]

/-- Witness for `station_total_pct_from_summed_rounded_means` at a
concrete input. -/
theorem station_total_pct_from_summed_rounded_means_witness :
    ([SRow.mk "Maverick" 100 120 20 20, SRow.mk "Airport" 200 230 30 15].map SRow.bc).sum ≠ 0
      ∧ (SRow.mk "BLUE LINE TOTAL" 300 350 50 17).pct
        = roundHalfEvenFrac
            (100 * (([SRow.mk "Maverick" 100 120 20 20,
                      SRow.mk "Airport" 200 230 30 15].map SRow.ac).sum
              - ([SRow.mk "Maverick" 100 120 20 20,
                  SRow.mk "Airport" 200 230 30 15].map SRow.bc).sum))
            (([SRow.mk "Maverick" 100 120 20 20,
               SRow.mk "Airport" 200 230 30 15].map SRow.bc).sum) :=
  station_total_pct_from_summed_rounded_means exDRowI "Blue Line"
    [SRow.mk "Maverick" 100 120 20 20, SRow.mk "Airport" 200 230 30 15,
     SRow.mk "BLUE LINE TOTAL" 300 350 50 17]
    (by decide) (by decide)
    [SRow.mk "Maverick" 100 120 20 20, SRow.mk "Airport" 200 230 30 15]
    (SRow.mk "BLUE LINE TOTAL" 300 350 50 17) rfl

theorem reindex_display_facts
    {df : List DRow} {line : String} {t : List SRow}
    {out : List (String × Option SVals)} {stations : List String} {label : String}
    (htab : station_stats_table df line = Except.ok t)
    (hre : reindexTo (stations ++ [label]) t = Except.ok out)
    (hlabel : totalLabelOf line = label)
    (hlabs : label ∉ stations) :
    out.map Prod.fst = stations ++ [label]
      ∧ (∀ s ∈ windowStops df, s ∉ stations → s ≠ label → s ∉ out.map Prod.fst)
      ∧ (∀ s ∈ stations, s ∉ windowStops df → (s, none) ∈ out) := by
  obtain ⟨ht, -, -⟩ := station_stats_table_ok_elim htab
  have hstop_mem : ∀ n ∈ t.map SRow.stop, n ∈ stopsOf (beforeRows df) ∨ n = label := by
    intro n hn
    rw [ht] at hn
    have hmap : (buildTable df line).map SRow.stop = (withTotal df line).map Prod.fst := by
      unfold buildTable
      rw [List.map_map]
      simp [enrich, Function.comp_def]
    rw [hmap] at hn
    rcases withTotal_fst_mem hn with h | h
    · exact Or.inl h
    · exact Or.inr (hlabel ▸ h)
  unfold reindexTo at hre
  split at hre
  next hnd =>
    have hout : out = (stations ++ [label]).map (fun n =>
        (n, (t.find? (fun r => r.stop == n)).map (fun r => ⟨r.bc, r.ac, r.diff, r.pct⟩))) := by
      injection hre with h
      exact h.symm
    have hfst : out.map Prod.fst = stations ++ [label] := by
      rw [hout, List.map_map]
      simp [Function.comp_def]
    refine ⟨hfst, ?_, ?_⟩
    · intro s _ hns hnl
      rw [hfst]
      intro hmem
      rcases List.mem_append.mp hmem with hh | hh
      · exact hns hh
      · exact hnl (List.mem_singleton.mp hh)
    · intro s hss hsnw
      rw [hout]
      have hfind : t.find? (fun r => r.stop == s) = none := by
        apply List.find?_eq_none.mpr
        intro r hr
        simp only [beq_iff_eq]
        intro heq
        rcases hstop_mem r.stop (List.mem_map_of_mem _ hr) with hh | hh
        · rw [heq] at hh
          exact hsnw (before_subset_windowStops s hh)
        · rw [heq] at hh
          exact hlabs (hh ▸ hss)
      rw [List.mem_map]
      exact ⟨s, List.mem_append_left _ hss, by rw [hfind]; rfl⟩
  next hnd => simp at hre

/-- The daily totals of the C7 counterexample: a station named exactly
`"BLUE LINE TOTAL"` with window data, alongside Wonderland. -/
def exDRowP : List DRow :=
  [⟨152, "BLUE LINE TOTAL", 10⟩, ⟨186, "BLUE LINE TOTAL", 14⟩,
   ⟨152, "Wonderland", 30⟩, ⟨186, "Wonderland", 33⟩]

/-- The displayed table `station_stats` produces on `exDRowP`: the
key `"BLUE LINE TOTAL"` — a station present in the data and absent
from `ownedStations` — appears in the display (carrying the total row
that overwrote the station's own row at src/main.py line 299). -/
def exOutP : List (String × Option SVals) :=
  [("Wonderland", some (SVals.mk 30 33 3 10)), ("Revere Beach", none), ("Beachmont", none),
   ("Suffolk Downs", none), ("Orient Heights", none), ("Wood Island", none),
   ("Airport", none), ("Maverick", none), ("Aquarium", none), ("State Street", none),
   ("Government Center", none), ("Bowdoin", none),
   ("BLUE LINE TOTAL", some (SVals.mk 40 47 7 18))]

/-- Claim C7 counterexample: `"BLUE LINE TOTAL"` is a station present
in the window data and absent from the owned-station list, yet it is
not dropped from the display — `station_stats` succeeds and the output
keys contain it, because line 299 overwrote that station's row (so the
frame index has no duplicates and `reindex` succeeds) and the display
reindexing always requests the total label. -/
theorem station_stats_display_counterexample :
    station_stats exDRowP "Blue Line" = Except.ok exOutP
      ∧ "BLUE LINE TOTAL" ∈ windowStops exDRowP
      ∧ "BLUE LINE TOTAL" ∉ lineStations "Blue Line"
      ∧ "BLUE LINE TOTAL" ∈ exOutP.map Prod.fst := by
  decide

/-- Claim C7 (amended): for a supported line the displayed
station-statistics table has exactly the rows `ownedStations` followed
by the total-label row (the `reindex` of src/main.py lines 310-313);
any station present in the window data that is absent from the
owned-station list and not named exactly the line-total label does not
appear in the display (a station named the total label has its row
overwritten by the total row, whose label remains a displayed key);
and any owned station absent from the window data appears as an
all-null placeholder row rather than raising. -/
theorem station_stats_display_order :
    ∀ (df : List DRow) (line : String) (out : List (String × Option SVals)),
      line = "Orange Line" ∨ line = "Blue Line" →
      station_stats df line = Except.ok out →
      out.map Prod.fst = lineStations line ++ [lineTotalLabel line]
        ∧ (∀ s ∈ windowStops df, s ∉ lineStations line → s ≠ lineTotalLabel line →
            s ∉ out.map Prod.fst)
        ∧ (∀ s ∈ lineStations line, s ∉ windowStops df → (s, none) ∈ out) := by
  intro df line out hline hok
  rcases hline with h | h <;> subst h
  · unfold station_stats at hok
    cases htab : station_stats_table df "Orange Line" with
    | error e => rw [htab] at hok; simp [Except.bind] at hok
    | ok t =>
      rw [htab] at hok
      have hsw : strStartsWith "Orange Line" "Orange Line" = true := by decide
      simp only [Except.bind] at hok
      rw [if_pos hsw] at hok
      have hfacts := reindex_display_facts htab hok (by decide) (by decide)
      rw [show lineStations "Orange Line" = OL_STATIONS from by decide,
        show lineTotalLabel "Orange Line" = "ORANGE LINE TOTAL" from by decide]
      exact hfacts
  · unfold station_stats at hok
    cases htab : station_stats_table df "Blue Line" with
    | error e => rw [htab] at hok; simp [Except.bind] at hok
    | ok t =>
      rw [htab] at hok
      have hsw1 : strStartsWith "Blue Line" "Orange Line" = false := by decide
      have hsw2 : strStartsWith "Blue Line" "Blue Line" = true := by decide
      simp only [Except.bind] at hok
      rw [if_neg (by rw [hsw1]; exact Bool.false_ne_true), if_pos hsw2] at hok
      have hfacts := reindex_display_facts htab hok (by decide) (by decide)
      rw [show lineStations "Blue Line" = BL_STATIONS from by decide,
        show lineTotalLabel "Blue Line" = "BLUE LINE TOTAL" from by decide]
      exact hfacts

/-- The daily totals instantiating the C7 witness: only Oak Grove has
data, every other owned Orange Line station is a placeholder row. -/
def exDRowJ : List DRow := [⟨152, "Oak Grove", 10⟩, ⟨186, "Oak Grove", 20⟩]

/-- The displayed table `station_stats` produces on `exDRowJ`. -/
def exOutJ : List (String × Option SVals) :=
  [("Oak Grove", some (SVals.mk 10 20 10 100)), ("Malden Center", none), ("Wellington", none),
   ("Assembly", none), ("Sullivan Square", none), ("Community College", none),
   ("North Station", none), ("Haymarket", none), ("State Street", none),
   ("ORANGE LINE TOTAL", some (SVals.mk 10 20 10 100))]

/-- Witness for `station_stats_display_order` at a concrete input. -/
theorem station_stats_display_order_witness :
    exOutJ.map Prod.fst = lineStations "Orange Line" ++ [lineTotalLabel "Orange Line"] :=
  (station_stats_display_order exDRowJ "Orange Line" exOutJ (Or.inl rfl) (by decide)).1

end Sumner
